import Mathlib

/-!
Shallow embedding of the echo request core: the per-request execution
context (src/unnamed/part_000, first segment, package echo) and the two
variants of the ContextTimeout middleware
(src/middleware/context_timeout.go, and src/unnamed/part_000, second
segment). Go machine values are modelled with Nat (uint8 arithmetic is
explicit `% 256`), Go errors with an inductive wrap chain, and fallible
code (a Go panic) with Except.
-/

/-- Go error values as seen by this code: the context sentinels, the echo
HTTPError used for the translated outcome, opaque application errors, and
a wrapping layer as produced by fmt.Errorf with a w verb. -/
inductive GoError where
  | deadlineExceeded : GoError
  | canceled : GoError
  | httpError (code : Nat) (message : String) : GoError
  | base (message : String) : GoError
  | wrapped (message : String) (inner : GoError) : GoError
deriving DecidableEq, BEq

/-- errors.Is by identity, unwrapping the wrap chain. -/
def errorsIs : GoError → GoError → Bool
  | GoError.wrapped m inner, target =>
      (GoError.wrapped m inner == target) || errorsIs inner target
  | e, target => e == target

/-- echo.ErrServiceUnavailable: an HTTPError with code 503. -/
def ErrServiceUnavailable : GoError := GoError.httpError 503 "Service Unavailable"

/-- The result of invoking a Go handler: returned nil, returned an error,
or did not return normally (runtime panic). -/
inductive RunResult where
  | ok : RunResult
  | err (e : GoError) : RunResult
  | panicked (msg : String) : RunResult
deriving DecidableEq, BEq

/-- True exactly on the panic result. -/
def RunResult.isPanicked : RunResult → Bool
  | RunResult.panicked _ => true
  | _ => false

/-- The observable actions the ContextTimeout middleware itself performs on
the request state: whether context.WithTimeout derived a bounded child
context, how many times its cancel function ran, how many times
c.SetRequest substituted the bounded context into the execution context,
and how many body writes the middleware performed on the response sink. -/
structure MwTrace where
  derivedContext : Bool
  cancelCalls : Nat
  setRequestCalls : Nat
  responseWrites : Nat
deriving DecidableEq

/-- The view of echo.Context that the middleware configuration can
observe: the response sink committed flag (c.Response().Committed). -/
structure EchoCtx where
  headersCommitted : Bool
deriving DecidableEq

/-- Modelled from the spec: middleware.DefaultSkipper, referenced through
DefaultTimeoutConfig.Skipper at src/middleware/context_timeout.go line 71
but defined in a file that is not under src. The spec says: Absent skip
predicate = never skipped. -/
def DefaultSkipper : EchoCtx → Bool := fun _ => false

/-- Modelled from the spec: DefaultTimeoutConfig.Skipper, the default the
current middleware variant installs when Skipper is nil; it is the
never-skip predicate DefaultSkipper. -/
def DefaultTimeoutConfigSkipper : EchoCtx → Bool := DefaultSkipper

namespace middleware

/-- ContextTimeoutConfig of src/middleware/context_timeout.go: Skipper
(nil modelled as none) and Timeout (a duration; 0 disables). -/
structure ContextTimeoutConfig where
  skipper : Option (EchoCtx → Bool)
  timeout : Nat

/-- One invocation of the handler built by ToMiddleware
(src/middleware/context_timeout.go lines 69-97) on execution context c,
where the downstream chain next returns `next`, and the bounded context
reports expired after the call returns iff boundedCtxExpiredAfter. Lines
70-72 default a nil Skipper to DefaultTimeoutConfig.Skipper. Lines 80-85
derive the bounded context, defer its cancel (which therefore runs once on
every exit path, a panic included) and substitute it via SetRequest.
Lines 87-94 translate an error satisfying errors.Is(err,
context.DeadlineExceeded) to echo.ErrServiceUnavailable, forward any
other error, and return nil on nil; the bounded context is never
consulted after next returns, so the result does not depend on
boundedCtxExpiredAfter. -/
def ContextTimeoutConfig.toMiddlewareRun (config : ContextTimeoutConfig)
    (c : EchoCtx) (next : RunResult) (boundedCtxExpiredAfter : Bool) :
    RunResult × MwTrace :=
  let skipper := config.skipper.getD DefaultTimeoutConfigSkipper
  if skipper c || config.timeout == 0 then
    (next, { derivedContext := false, cancelCalls := 0,
             setRequestCalls := 0, responseWrites := 0 })
  else
    let t : MwTrace :=
      { derivedContext := true, cancelCalls := 1,
        setRequestCalls := 1, responseWrites := 0 }
    match next with
    | RunResult.panicked m => (RunResult.panicked m, t)
    | RunResult.err e =>
        if errorsIs e GoError.deadlineExceeded then
          (RunResult.err ErrServiceUnavailable, t)
        else
          (RunResult.err e, t)
    | RunResult.ok => (RunResult.ok, t)

end middleware

namespace middlewareOld

/-- ContextTimeoutConfig of the older middleware variant
(src/unnamed/part_000 lines 153-163): Skipper, ErrorHandler and Timeout.
A Go handler of type func(err error, c echo.Context) error is modelled as
Option GoError → EchoCtx → Option GoError, none standing for nil. -/
structure ContextTimeoutConfig where
  skipper : Option (EchoCtx → Bool)
  errorHandler : Option (Option GoError → EchoCtx → Option GoError)
  timeout : Nat

/-- DefaultContextTimeoutErrorHandler (src/unnamed/part_000 lines
166-176): a deadline-exceeded error (by errors.Is identity) becomes
echo.ErrServiceUnavailable, any other non-nil error is returned as is,
nil stays nil. -/
def DefaultContextTimeoutErrorHandler (err : Option GoError) (_c : EchoCtx) :
    Option GoError :=
  match err with
  | some e =>
      if errorsIs e GoError.deadlineExceeded then some ErrServiceUnavailable
      else some e
  | none => none

/-- One invocation of the handler built by ToMiddleware of the older
variant (src/unnamed/part_000 lines 195-218). Line 198 skips when a
non-nil Skipper returns true or Timeout is 0. Lines 202-205 derive the
bounded context, defer cancel and substitute via SetRequest. Lines
207-215 feed a non-nil error to ErrorHandler (or, when that is nil, to
DefaultContextTimeoutErrorHandler) and return nil on nil; the bounded
context is never consulted after next returns. -/
def ContextTimeoutConfig.toMiddlewareRun (config : ContextTimeoutConfig)
    (c : EchoCtx) (next : RunResult) (boundedCtxExpiredAfter : Bool) :
    RunResult × MwTrace :=
  if (match config.skipper with | some s => s c | none => false)
      || config.timeout == 0 then
    (next, { derivedContext := false, cancelCalls := 0,
             setRequestCalls := 0, responseWrites := 0 })
  else
    let t : MwTrace :=
      { derivedContext := true, cancelCalls := 1,
        setRequestCalls := 1, responseWrites := 0 }
    match next with
    | RunResult.panicked m => (RunResult.panicked m, t)
    | RunResult.err e =>
        (match
          (match config.errorHandler with
           | some h => h (some e) c
           | none => DefaultContextTimeoutErrorHandler (some e) c) with
         | some e2 => RunResult.err e2
         | none => RunResult.ok, t)
    | RunResult.ok => (RunResult.ok, t)

end middlewareOld

/-- The Response sink (src/unnamed/part_000 field response). Its type
definition is not under src; only its shape matters here: the raw write
target (as a handle), the committed flag, status and size the spec gives
for the ResponseSink. -/
structure Response where
  writer : Nat
  committed : Bool
  status : Nat
  size : Nat
deriving DecidableEq

/-- Modelled from the spec: Response.reset, called by Context.reset
(src/unnamed/part_000 line 140) but defined in a file that is not under
src. The spec says the sink is destroyed and reset on pooling, so reset
rebinds the sink to the new write target and clears the committed flag,
status and size. -/
def Response.reset (_res : Response) (w : Nat) : Response :=
  { writer := w, committed := false, status := 0, size := 0 }

/-- Context (src/unnamed/part_000 lines 13-21): request, response,
socket, the parallel path parameter arrays pnames and pvalues, the
scratch store (a Go map from string to interface values, modelled as an
association list with the newest binding first, values as opaque Nat
handles) and the owning Echo instance. Pointer fields are handles. -/
structure Context where
  request : Nat
  response : Response
  socket : Nat
  pnames : List String
  pvalues : List String
  store : List (String × Nat)
  echo : Nat
deriving DecidableEq

/-- NewContext (src/unnamed/part_000 lines 25-34): pnames and pvalues are
allocated with length e.maxParam (passed here explicitly), the store
empty. -/
def NewContext (req : Nat) (res : Response) (maxParam : Nat) (e : Nat) :
    Context :=
  { request := req, response := res, socket := 0,
    pnames := List.replicate maxParam "",
    pvalues := List.replicate maxParam "",
    store := [], echo := e }

/-- Context.P (src/unnamed/part_000 lines 52-58). The argument i is a
uint8, so 0 ≤ i < 256, and l is uint8(len(c.pnames)), modelled with
`% 256`. The source guards the access c.pvalues[i] with i <= l; an index
access beyond len(c.pvalues) is a Go runtime panic, modelled as
Except.error. When the guard fails, the named return keeps its zero
value, the empty string. -/
def Context.P (c : Context) (i : Nat) : Except String String :=
  let l := c.pnames.length % 256
  if i ≤ l then
    match c.pvalues.get? i with
    | some v => Except.ok v
    | none => Except.error "runtime error: index out of range"
  else
    Except.ok ""

/-- The loop body of Context.Param: range over pnames with index i,
returning pvalues[i] for the first name equal to the argument (the guard
i <= l, with l = len(pnames), is always true inside the range); an index
access beyond len(c.pvalues) is a Go runtime panic, modelled as
Except.error. Falling off the loop returns the zero value, the empty
string. -/
def Context.ParamAux : List String → List String → Nat → Nat → String →
    Except String String
  | [], _, _, _, _ => Except.ok ""
  | n :: ns, pvalues, l, i, name =>
    if n = name ∧ i ≤ l then
      match pvalues.get? i with
      | some v => Except.ok v
      | none => Except.error "runtime error: index out of range"
    else
      Context.ParamAux ns pvalues l (i + 1) name

/-- Context.Param (src/unnamed/part_000 lines 61-70): linear scan over
pnames for the first matching name. -/
def Context.Param (c : Context) (name : String) : Except String String :=
  Context.ParamAux c.pnames c.pvalues c.pnames.length 0 name

/-- Context.Get (src/unnamed/part_000 lines 124-126): map lookup; a
missing key gives the zero interface value, modelled as none. -/
def Context.Get (c : Context) (key : String) : Option Nat :=
  c.store.lookup key

/-- Context.Set (src/unnamed/part_000 lines 129-131): map insert,
overwriting any previous binding of the key. -/
def Context.Set (c : Context) (key : String) (val : Nat) : Context :=
  { c with store := (key, val) :: c.store.filter (fun p => p.1 != key) }

/-- Context.reset (src/unnamed/part_000 lines 138-142): rebinds request,
resets the response in place onto the new write target, rebinds the
owner. No other field is touched: pnames, pvalues, the store and socket
keep their previous contents. -/
def Context.reset (c : Context) (w : Nat) (r : Nat) (e : Nat) : Context :=
  { c with request := r, response := c.response.reset w, echo := e }

/-- Claim C1, counterexample: with the skip predicate constantly false
and timeout 5 (the middleware active), a downstream success while the
bounded context reports expired after the call still yields the
downstream success, not the translated service unavailable outcome — the
source never consults the bounded context after next returns. -/
theorem c1_counterexample :
    (fun (_ : EchoCtx) => false) ⟨false⟩ = false ∧ (5 : Nat) ≠ 0 ∧
    (({ skipper := some (fun _ => false), timeout := 5 } :
        middleware.ContextTimeoutConfig).toMiddlewareRun ⟨false⟩
        RunResult.ok true).1 = RunResult.ok ∧
    RunResult.ok ≠ RunResult.err ErrServiceUnavailable := by
  exact ⟨rfl, by decide, rfl, by decide⟩

/-- Claim C1 (amended): for every request where the middleware is active,
a downstream success is returned unchanged regardless of whether the
bounded context reports expired after the call returns; no post-hoc
expiry check is performed, in either middleware variant. -/
theorem c1_amended_success_passthrough
    (cfg1 : middleware.ContextTimeoutConfig)
    (cfg2 : middlewareOld.ContextTimeoutConfig) (c : EchoCtx) (exp : Bool)
    (hskip1 : cfg1.skipper.getD DefaultTimeoutConfigSkipper c = false)
    (ht1 : cfg1.timeout ≠ 0)
    (hskip2 : (match cfg2.skipper with | some s => s c | none => false) = false)
    (ht2 : cfg2.timeout ≠ 0) :
    (cfg1.toMiddlewareRun c RunResult.ok exp).1 = RunResult.ok ∧
    (cfg2.toMiddlewareRun c RunResult.ok exp).1 = RunResult.ok := by
  constructor
  · unfold middleware.ContextTimeoutConfig.toMiddlewareRun
    simp [hskip1, ht1]
  · unfold middlewareOld.ContextTimeoutConfig.toMiddlewareRun
    simp [hskip2, ht2]

/-- Claim C1 (amended), witness at skip false, timeout 5, bounded context
expired after return. -/
theorem c1_amended_witness :
    (({ skipper := some (fun _ => false), timeout := 5 } :
        middleware.ContextTimeoutConfig).toMiddlewareRun ⟨false⟩
        RunResult.ok true).1 = RunResult.ok ∧
    (({ skipper := some (fun _ => false), errorHandler := none, timeout := 5 } :
        middlewareOld.ContextTimeoutConfig).toMiddlewareRun ⟨false⟩
        RunResult.ok true).1 = RunResult.ok :=
  c1_amended_success_passthrough _ _ ⟨false⟩ true rfl (by decide) rfl (by decide)

/-- Claim C2: for every active request, a downstream failure that is or
wraps the deadline-exceeded sentinel becomes the fixed service
unavailable outcome, and that outcome does not carry the sentinel (the
sentinel is never forwarded upward). Holds for the current variant and
for the older variant with the default error handler installed or nil. -/
theorem c2_deadline_translated
    (cfg1 : middleware.ContextTimeoutConfig)
    (cfg2 : middlewareOld.ContextTimeoutConfig) (c : EchoCtx)
    (e : GoError) (exp : Bool)
    (hskip1 : cfg1.skipper.getD DefaultTimeoutConfigSkipper c = false)
    (ht1 : cfg1.timeout ≠ 0)
    (hskip2 : (match cfg2.skipper with | some s => s c | none => false) = false)
    (ht2 : cfg2.timeout ≠ 0)
    (hdef : cfg2.errorHandler = none ∨
      cfg2.errorHandler = some middlewareOld.DefaultContextTimeoutErrorHandler)
    (he : errorsIs e GoError.deadlineExceeded = true) :
    (cfg1.toMiddlewareRun c (RunResult.err e) exp).1
      = RunResult.err ErrServiceUnavailable ∧
    (cfg2.toMiddlewareRun c (RunResult.err e) exp).1
      = RunResult.err ErrServiceUnavailable ∧
    errorsIs ErrServiceUnavailable GoError.deadlineExceeded = false := by
  refine ⟨?_, ?_, by decide⟩
  · unfold middleware.ContextTimeoutConfig.toMiddlewareRun
    simp [hskip1, ht1, he]
  · unfold middlewareOld.ContextTimeoutConfig.toMiddlewareRun
    rcases hdef with hdef | hdef <;>
      simp [hskip2, ht2, hdef, middlewareOld.DefaultContextTimeoutErrorHandler, he]

/-- Claim C2, witness at skip false, timeout 5, downstream failure
wrapping the sentinel, older variant with nil error handler. -/
theorem c2_witness :
    (({ skipper := some (fun _ => false), timeout := 5 } :
        middleware.ContextTimeoutConfig).toMiddlewareRun ⟨false⟩
        (RunResult.err (GoError.wrapped "query" GoError.deadlineExceeded))
        false).1 = RunResult.err ErrServiceUnavailable ∧
    (({ skipper := some (fun _ => false), errorHandler := none, timeout := 5 } :
        middlewareOld.ContextTimeoutConfig).toMiddlewareRun ⟨false⟩
        (RunResult.err (GoError.wrapped "query" GoError.deadlineExceeded))
        false).1 = RunResult.err ErrServiceUnavailable ∧
    errorsIs ErrServiceUnavailable GoError.deadlineExceeded = false :=
  c2_deadline_translated _ _ ⟨false⟩ _ false rfl (by decide) rfl (by decide)
    (Or.inl rfl) (by decide)

/-- Claim C3: when the skip predicate returns true or the timeout is
zero, both middleware variants return the downstream outcome unchanged
and perform no action at all: no bounded context is derived, no cancel
runs, no SetRequest substitution occurs, nothing is written. -/
theorem c3_skip_passthrough
    (cfg1 : middleware.ContextTimeoutConfig)
    (cfg2 : middlewareOld.ContextTimeoutConfig) (c : EchoCtx)
    (next : RunResult) (exp : Bool)
    (h1 : cfg1.skipper.getD DefaultTimeoutConfigSkipper c = true ∨
      cfg1.timeout = 0)
    (h2 : (match cfg2.skipper with | some s => s c | none => false) = true ∨
      cfg2.timeout = 0) :
    cfg1.toMiddlewareRun c next exp
      = (next, { derivedContext := false, cancelCalls := 0,
                 setRequestCalls := 0, responseWrites := 0 }) ∧
    cfg2.toMiddlewareRun c next exp
      = (next, { derivedContext := false, cancelCalls := 0,
                 setRequestCalls := 0, responseWrites := 0 }) := by
  constructor
  · unfold middleware.ContextTimeoutConfig.toMiddlewareRun
    rcases h1 with h1 | h1 <;> simp [h1]
  · unfold middlewareOld.ContextTimeoutConfig.toMiddlewareRun
    rcases h2 with h2 | h2 <;> simp [h2]

/-- Claim C3, witness: skip predicate constantly true with a nonzero
timeout; the downstream failure comes back unchanged with an untouched
trace. -/
theorem c3_witness :
    ({ skipper := some (fun _ => true), timeout := 5 } :
        middleware.ContextTimeoutConfig).toMiddlewareRun ⟨false⟩
        (RunResult.err (GoError.base "boom")) true
      = (RunResult.err (GoError.base "boom"),
         { derivedContext := false, cancelCalls := 0,
           setRequestCalls := 0, responseWrites := 0 }) ∧
    ({ skipper := some (fun _ => true), errorHandler := none, timeout := 5 } :
        middlewareOld.ContextTimeoutConfig).toMiddlewareRun ⟨false⟩
        (RunResult.err (GoError.base "boom")) true
      = (RunResult.err (GoError.base "boom"),
         { derivedContext := false, cancelCalls := 0,
           setRequestCalls := 0, responseWrites := 0 }) :=
  c3_skip_passthrough _ _ ⟨false⟩ _ true (Or.inl rfl) (Or.inl rfl)

/-- A context with exactly one populated path parameter, used to evaluate
Context.P at its boundary. -/
def oneParamCtx : Context :=
  { request := 0,
    response := { writer := 0, committed := false, status := 0, size := 0 },
    socket := 0, pnames := ["id"], pvalues := ["42"], store := [], echo := 0 }

/-- Claim C4: at index 0 the stored value comes back and at index 2 the
empty string, but at index 1 — equal to the parameter count — the guard
i <= len(pnames) admits the access c.pvalues[1], which is a runtime
index-out-of-range panic: P does not return an empty result there and is
not panic free. -/
theorem c4_p_panics_at_param_count :
    oneParamCtx.P 0 = Except.ok "42" ∧
    oneParamCtx.P 1 = Except.error "runtime error: index out of range" ∧
    oneParamCtx.P 2 = Except.ok "" :=
  ⟨rfl, rfl, rfl⟩

/-- Claim C5, counterexample: a key set before reset is still retrievable
through Get after reset — the scratch store survives reset untouched. -/
theorem c5_counterexample :
    (((NewContext 1 { writer := 0, committed := false, status := 0, size := 0 }
        4 10).Set "k" 7).reset 2 3 11).Get "k" = some 7 ∧
    some 7 ≠ (none : Option Nat) :=
  ⟨rfl, by decide⟩

/-- Claim C5 (amended): reset rebinds the request and owner references
and resets the response sink in place onto the new write target, without
reallocating the parameter arrays; the scratch store is neither cleared
nor replaced, so every key set before reset is still retrievable via Get
with its old value. -/
theorem c5_amended_reset_frame (c : Context) (w r e : Nat) :
    (c.reset w r e).request = r ∧
    (c.reset w r e).response = c.response.reset w ∧
    (c.reset w r e).echo = e ∧
    (c.reset w r e).pnames = c.pnames ∧
    (c.reset w r e).pvalues = c.pvalues ∧
    (c.reset w r e).store = c.store ∧
    ∀ key : String, (c.reset w r e).Get key = c.Get key :=
  ⟨rfl, rfl, rfl, rfl, rfl, rfl, fun _ => rfl⟩

/-- Claim C6: for every active request, a downstream failure that does
not satisfy the deadline-exceeded identity check is forwarded unchanged —
the very same error value — in the current variant always, and in the
older variant with the default error handler installed or nil. -/
theorem c6_other_error_forwarded
    (cfg1 : middleware.ContextTimeoutConfig)
    (cfg2 : middlewareOld.ContextTimeoutConfig) (c : EchoCtx)
    (e : GoError) (exp : Bool)
    (hskip1 : cfg1.skipper.getD DefaultTimeoutConfigSkipper c = false)
    (ht1 : cfg1.timeout ≠ 0)
    (hskip2 : (match cfg2.skipper with | some s => s c | none => false) = false)
    (ht2 : cfg2.timeout ≠ 0)
    (hdef : cfg2.errorHandler = none ∨
      cfg2.errorHandler = some middlewareOld.DefaultContextTimeoutErrorHandler)
    (he : errorsIs e GoError.deadlineExceeded = false) :
    (cfg1.toMiddlewareRun c (RunResult.err e) exp).1 = RunResult.err e ∧
    (cfg2.toMiddlewareRun c (RunResult.err e) exp).1 = RunResult.err e := by
  constructor
  · unfold middleware.ContextTimeoutConfig.toMiddlewareRun
    simp [hskip1, ht1, he]
  · unfold middlewareOld.ContextTimeoutConfig.toMiddlewareRun
    rcases hdef with hdef | hdef <;>
      simp [hskip2, ht2, hdef, middlewareOld.DefaultContextTimeoutErrorHandler, he]

/-- Claim C6, witness: an opaque application failure passes through both
variants unchanged. -/
theorem c6_witness :
    (({ skipper := some (fun _ => false), timeout := 5 } :
        middleware.ContextTimeoutConfig).toMiddlewareRun ⟨false⟩
        (RunResult.err (GoError.base "boom")) false).1
      = RunResult.err (GoError.base "boom") ∧
    (({ skipper := some (fun _ => false), errorHandler := none, timeout := 5 } :
        middlewareOld.ContextTimeoutConfig).toMiddlewareRun ⟨false⟩
        (RunResult.err (GoError.base "boom")) false).1
      = RunResult.err (GoError.base "boom") :=
  c6_other_error_forwarded _ _ ⟨false⟩ _ false rfl (by decide) rfl (by decide)
    (Or.inl rfl) (by decide)

/-- Claim C7: whenever the middleware is active it derives the bounded
context, and the deferred cancel releases it exactly once after the
downstream call returns, on every outcome path — success, non-deadline
failure, deadline failure, or a downstream panic — in both variants. -/
theorem c7_cancel_released_once
    (cfg1 : middleware.ContextTimeoutConfig)
    (cfg2 : middlewareOld.ContextTimeoutConfig) (c : EchoCtx)
    (next : RunResult) (exp : Bool)
    (hskip1 : cfg1.skipper.getD DefaultTimeoutConfigSkipper c = false)
    (ht1 : cfg1.timeout ≠ 0)
    (hskip2 : (match cfg2.skipper with | some s => s c | none => false) = false)
    (ht2 : cfg2.timeout ≠ 0) :
    ((cfg1.toMiddlewareRun c next exp).2.derivedContext = true ∧
     (cfg1.toMiddlewareRun c next exp).2.cancelCalls = 1) ∧
    ((cfg2.toMiddlewareRun c next exp).2.derivedContext = true ∧
     (cfg2.toMiddlewareRun c next exp).2.cancelCalls = 1) := by
  constructor
  · unfold middleware.ContextTimeoutConfig.toMiddlewareRun
    cases next <;> simp [hskip1, ht1]
    split <;> simp
  · unfold middlewareOld.ContextTimeoutConfig.toMiddlewareRun
    cases next <;> simp [hskip2, ht2]

/-- Claim C7, witness on the panic path: a downstream panic still leaves
exactly one cancel call in both variants. -/
theorem c7_witness :
    ((({ skipper := some (fun _ => false), timeout := 5 } :
        middleware.ContextTimeoutConfig).toMiddlewareRun ⟨false⟩
        (RunResult.panicked "boom") false).2.derivedContext = true ∧
     (({ skipper := some (fun _ => false), timeout := 5 } :
        middleware.ContextTimeoutConfig).toMiddlewareRun ⟨false⟩
        (RunResult.panicked "boom") false).2.cancelCalls = 1) ∧
    ((({ skipper := some (fun _ => false), errorHandler := none, timeout := 5 } :
        middlewareOld.ContextTimeoutConfig).toMiddlewareRun ⟨false⟩
        (RunResult.panicked "boom") false).2.derivedContext = true ∧
     (({ skipper := some (fun _ => false), errorHandler := none, timeout := 5 } :
        middlewareOld.ContextTimeoutConfig).toMiddlewareRun ⟨false⟩
        (RunResult.panicked "boom") false).2.cancelCalls = 1) :=
  c7_cancel_released_once _ _ ⟨false⟩ _ false rfl (by decide) rfl (by decide)

/-- Claim C8: when the downstream outcome is a deadline-exceeded failure
and the response sink already reports headers committed, the middleware
performs no write to the sink: neither variant contains any write call,
so the translated outcome is only returned upward, never rendered by the
middleware itself. -/
theorem c8_no_second_write
    (cfg1 : middleware.ContextTimeoutConfig)
    (cfg2 : middlewareOld.ContextTimeoutConfig) (c : EchoCtx)
    (e : GoError) (exp : Bool)
    (hc : c.headersCommitted = true)
    (he : errorsIs e GoError.deadlineExceeded = true) :
    (cfg1.toMiddlewareRun c (RunResult.err e) exp).2.responseWrites = 0 ∧
    (cfg2.toMiddlewareRun c (RunResult.err e) exp).2.responseWrites = 0 := by
  constructor
  · unfold middleware.ContextTimeoutConfig.toMiddlewareRun
    dsimp only
    split
    · rfl
    · simp [he]
  · unfold middlewareOld.ContextTimeoutConfig.toMiddlewareRun
    dsimp only
    split
    · rfl
    · rfl

/-- Claim C8, witness: committed sink, deadline failure downstream, no
write performed by either variant. -/
theorem c8_witness :
    (({ skipper := some (fun _ => false), timeout := 5 } :
        middleware.ContextTimeoutConfig).toMiddlewareRun ⟨true⟩
        (RunResult.err GoError.deadlineExceeded) true).2.responseWrites = 0 ∧
    (({ skipper := some (fun _ => false), errorHandler := none, timeout := 5 } :
        middlewareOld.ContextTimeoutConfig).toMiddlewareRun ⟨true⟩
        (RunResult.err GoError.deadlineExceeded) true).2.responseWrites = 0 :=
  c8_no_second_write _ _ ⟨true⟩ _ true rfl (by decide)

/-- Claim C9: a nil skip predicate yields a middleware extensionally
identical to one configured with the never-skip predicate, in both
variants; and for every configuration the invocation result is a panic
exactly when the downstream result was one — the middleware itself never
panics. -/
theorem c9_nil_skipper_default
    (t : Nat) (c : EchoCtx) (next : RunResult) (exp : Bool)
    (sk1 sk2 : Option (EchoCtx → Bool))
    (eh : Option (Option GoError → EchoCtx → Option GoError)) :
    ({ skipper := none, timeout := t } :
        middleware.ContextTimeoutConfig).toMiddlewareRun c next exp
      = ({ skipper := some (fun _ => false), timeout := t } :
        middleware.ContextTimeoutConfig).toMiddlewareRun c next exp ∧
    ({ skipper := none, errorHandler := eh, timeout := t } :
        middlewareOld.ContextTimeoutConfig).toMiddlewareRun c next exp
      = ({ skipper := some (fun _ => false), errorHandler := eh, timeout := t } :
        middlewareOld.ContextTimeoutConfig).toMiddlewareRun c next exp ∧
    (({ skipper := sk1, timeout := t } :
        middleware.ContextTimeoutConfig).toMiddlewareRun c next exp).1.isPanicked
      = next.isPanicked ∧
    (({ skipper := sk2, errorHandler := eh, timeout := t } :
        middlewareOld.ContextTimeoutConfig).toMiddlewareRun c next exp).1.isPanicked
      = next.isPanicked := by
  refine ⟨rfl, rfl, ?_, ?_⟩
  · unfold middleware.ContextTimeoutConfig.toMiddlewareRun
    cases next <;> dsimp only <;> split <;> first | rfl | (split <;> rfl)
  · unfold middlewareOld.ContextTimeoutConfig.toMiddlewareRun
    cases next <;> dsimp only <;> split <;> first | rfl | (split <;> rfl)

/-- Claim C10: reset leaves the path parameter arrays untouched: their
contents are identical before and after, and both the positional lookup P
and the name lookup Param agree with their pre-reset results at every
argument. -/
theorem c10_reset_preserves_params (c : Context) (w r e : Nat) :
    (c.reset w r e).pnames = c.pnames ∧
    (c.reset w r e).pvalues = c.pvalues ∧
    (∀ i : Nat, (c.reset w r e).P i = c.P i) ∧
    ∀ name : String, (c.reset w r e).Param name = c.Param name :=
  ⟨rfl, rfl, fun _ => rfl, fun _ => rfl⟩
